import Mathlib

/-
Verification of the httputil library (errors.go, params.go, httputil.go,
bearer_token.go) against its natural-language specification.

The Go package is shallowly embedded: request parameter sources become
lookup functions (form and query lookups return the empty string for an
absent key, exactly like Go's r.FormValue and url.Values.Get; the router
variable map returns an Option, like the comma-ok map lookup on mux.Vars),
panics become Except.error results, and the error taxonomy of errors.go
becomes an inductive datatype carrying the same observable data (dynamic
kind, Message, Details, wrapped cause). External collaborators from the
Go standard library are either modelled faithfully where their behavior
matters to a claim (strconv.ParseBool, strconv.ParseInt, strconv.Atoi,
http.StatusText) or abstracted as explicit function parameters where only
their success/failure routing matters (strconv.ParseFloat, time.Parse,
time.ParseDuration, encoding/json decoding).
-/

namespace Httputil

/-- Model of the Go standard library function http.StatusText restricted to
the status codes appearing in the error taxonomy of errors.go; unknown codes
map to the empty string, as in Go. -/
def statusText (code : Int) : String :=
  if code = 400 then "Bad Request"
  else if code = 401 then "Unauthorized"
  else if code = 402 then "Payment Required"
  else if code = 403 then "Forbidden"
  else if code = 404 then "Not Found"
  else if code = 405 then "Method Not Allowed"
  else if code = 406 then "Not Acceptable"
  else if code = 407 then "Proxy Authentication Required"
  else if code = 408 then "Request Timeout"
  else if code = 409 then "Conflict"
  else if code = 410 then "Gone"
  else if code = 411 then "Length Required"
  else if code = 412 then "Precondition Failed"
  else if code = 413 then "Request Entity Too Large"
  else if code = 414 then "Request URI Too Long"
  else if code = 415 then "Unsupported Media Type"
  else if code = 416 then "Requested Range Not Satisfiable"
  else if code = 417 then "Expectation Failed"
  else if code = 418 then "I\x27m a teapot"
  else if code = 421 then "Misdirected Request"
  else if code = 422 then "Unprocessable Entity"
  else if code = 423 then "Locked"
  else if code = 424 then "Failed Dependency"
  else if code = 425 then "Too Early"
  else if code = 426 then "Upgrade Required"
  else if code = 428 then "Precondition Required"
  else if code = 429 then "Too Many Requests"
  else if code = 431 then "Request Header Fields Too Large"
  else if code = 451 then "Unavailable For Legal Reasons"
  else if code = 500 then "Internal Server Error"
  else if code = 501 then "Not Implemented"
  else if code = 502 then "Bad Gateway"
  else if code = 503 then "Service Unavailable"
  else if code = 504 then "Gateway Timeout"
  else if code = 505 then "HTTP Version Not Supported"
  else if code = 506 then "Variant Also Negotiates"
  else if code = 507 then "Insufficient Storage"
  else if code = 508 then "Loop Detected"
  else if code = 510 then "Not Extended"
  else if code = 511 then "Network Authentication Required"
  else ""

/-- The closed set of named error kinds declared in errors.go, one struct
type per HTTP status code from 400 through 511. Each Go struct has the
same field set (Message, Details, Err), so the kinds are represented as an
enumeration tagging a common record shape. -/
inductive ErrKind where
  | badRequest
  | unauthorized
  | paymentRequired
  | forbidden
  | notFound
  | methodNotAllowed
  | notAcceptable
  | proxyAuthRequired
  | requestTimeout
  | conflict
  | gone
  | lengthRequired
  | preconditionFailed
  | requestEntityTooLarge
  | requestURITooLong
  | unsupportedMediaType
  | requestedRangeNotSatisfiable
  | expectationFailed
  | teapot
  | misdirectedRequest
  | unprocessableEntity
  | locked
  | failedDependency
  | tooEarly
  | upgradeRequired
  | preconditionRequired
  | tooManyRequests
  | requestHeaderFieldsTooLarge
  | unavailableForLegalReasons
  | internalServerError
  | notImplemented
  | badGateway
  | serviceUnavailable
  | gatewayTimeout
  | httpVersionNotSupported
  | variantAlsoNegotiates
  | insufficientStorage
  | loopDetected
  | notExtended
  | networkAuthenticationRequired
  deriving DecidableEq

/-- The compile-time HTTP status code returned by the HTTPCode method of
each error struct in errors.go. -/
def errKindCode : ErrKind → Int
  | .badRequest => 400
  | .unauthorized => 401
  | .paymentRequired => 402
  | .forbidden => 403
  | .notFound => 404
  | .methodNotAllowed => 405
  | .notAcceptable => 406
  | .proxyAuthRequired => 407
  | .requestTimeout => 408
  | .conflict => 409
  | .gone => 410
  | .lengthRequired => 411
  | .preconditionFailed => 412
  | .requestEntityTooLarge => 413
  | .requestURITooLong => 414
  | .unsupportedMediaType => 415
  | .requestedRangeNotSatisfiable => 416
  | .expectationFailed => 417
  | .teapot => 418
  | .misdirectedRequest => 421
  | .unprocessableEntity => 422
  | .locked => 423
  | .failedDependency => 424
  | .tooEarly => 425
  | .upgradeRequired => 426
  | .preconditionRequired => 428
  | .tooManyRequests => 429
  | .requestHeaderFieldsTooLarge => 431
  | .unavailableForLegalReasons => 451
  | .internalServerError => 500
  | .notImplemented => 501
  | .badGateway => 502
  | .serviceUnavailable => 503
  | .gatewayTimeout => 504
  | .httpVersionNotSupported => 505
  | .variantAlsoNegotiates => 506
  | .insufficientStorage => 507
  | .loopDetected => 508
  | .notExtended => 510
  | .networkAuthenticationRequired => 511

/-- Error values that can flow through the library: the 40 named kinds of
errors.go share one constructor carrying their dynamic kind and the fields
Message, Details, Err; the generic Error struct carries an explicit Code;
MissingParameterError and InvalidParameterError are the string-typed kinds
of errors.go; plainValue stands for a non-library value handed to the
responder (for example a plain string), identified by its printed form. -/
inductive GoError where
  | kindErr (kind : ErrKind) (Message : String) (Details : List String) (Err : Option GoError)
  | genericErr (Code : Int) (Message : String) (Details : List String) (Err : Option GoError)
  | missingParam (name : String)
  | invalidParam (name : String)
  | plainValue (printed : String)

/-- Model of the Go format verb %q on a single character, for the printable
ASCII names these claims use: the double quote and the backslash are
escaped, every other character is kept as is. -/
def goQuoteChar (c : Char) : String :=
  if c = '"' then "\\\"" else if c = '\\' then "\\\\" else String.singleton c

/-- Model of the Go format verb %q on a string (printable ASCII): the
escaped characters wrapped in double quotes. -/
def goQuote (s : String) : String :=
  "\"" ++ String.join (s.data.map goQuoteChar) ++ "\""

/-- The BadRequestError struct of errors.go (status 400). -/
def BadRequestError (Message : String) (Details : List String) (Err : Option GoError) : GoError :=
  .kindErr .badRequest Message Details Err

/-- The MethodNotAllowedError struct of errors.go (status 405). -/
def MethodNotAllowedError (Message : String) (Details : List String) (Err : Option GoError) : GoError :=
  .kindErr .methodNotAllowed Message Details Err

/-- InvalidMethodError is a type alias for MethodNotAllowedError in
errors.go, embedded as a definitional alias. -/
def InvalidMethodError := MethodNotAllowedError

/-- The InternalServerError struct of errors.go (status 500). -/
def InternalServerError (Message : String) (Details : List String) (Err : Option GoError) : GoError :=
  .kindErr .internalServerError Message Details Err

/-- ServerError is a type alias for InternalServerError in errors.go,
embedded as a definitional alias. -/
def ServerError := InternalServerError

/-- The string-typed MissingParameterError of errors.go. -/
def MissingParameterError (name : String) : GoError :=
  .missingParam name

/-- The string-typed InvalidParameterError of errors.go. -/
def InvalidParameterError (name : String) : GoError :=
  .invalidParam name

/-- The Error method of each error value, as defined in errors.go: the
Message field when non-empty, otherwise http.StatusText of the fixed code
(the generic Error struct additionally falls back to the text
"Unknown error" when its code has no reason phrase); the parameter errors
format their name with %q; for a plainValue the printed form stands for
what fmt.Sprint would produce. -/
def errText : GoError → String
  | .kindErr k m _ _ => if m = "" then statusText (errKindCode k) else m
  | .genericErr c m _ _ =>
      if m = "" then (if statusText c = "" then "Unknown error" else statusText c) else m
  | .missingParam n => "Missing parameter " ++ goQuote n
  | .invalidParam n => "Invalid parameter " ++ goQuote n
  | .plainValue s => s

/-- The httpCoder capability of errors.go: the HTTPCode method when the
dynamic type implements it, none otherwise. -/
def httpCodeOf : GoError → Option Int
  | .kindErr k _ _ _ => some (errKindCode k)
  | .genericErr c _ _ _ => some c
  | .missingParam _ => some 400
  | .invalidParam _ => some 400
  | .plainValue _ => none

/-- The httpErrorDetails capability of errors.go: the ErrorDetails method
when the dynamic type implements it. MissingParameterError,
InvalidParameterError and non-library values do not implement it. -/
def errorDetailsOf : GoError → Option (List String)
  | .kindErr _ _ d _ => some d
  | .genericErr _ _ d _ => some d
  | .missingParam _ => none
  | .invalidParam _ => none
  | .plainValue _ => none

/-- The Unwrap method of each error value in errors.go: the Err field for
the struct kinds; MissingParameterError and InvalidParameterError unwrap to
a BadRequestError whose Message is their own text. -/
def unwrapErr : GoError → Option GoError
  | .kindErr _ _ _ er => er
  | .genericErr _ _ _ er => er
  | .missingParam n => some (BadRequestError (errText (.missingParam n)) [] none)
  | .invalidParam n => some (BadRequestError (errText (.invalidParam n)) [] none)
  | .plainValue _ => none

/-- The Is method of MissingParameterError in errors.go: true exactly when
the target is of dynamic type BadRequestError (the Go switch also accepts a
pointer to one, which this value model does not distinguish), regardless of
the target fields. The receiver is unused, as in the source. -/
def MissingParameterErrorIs (_e : String) (target : GoError) : Bool :=
  match target with
  | .kindErr .badRequest _ _ _ => true
  | _ => false

/-- The Is method of InvalidParameterError in errors.go, identical in body
to the one of MissingParameterError. -/
def InvalidParameterErrorIs (_e : String) (target : GoError) : Bool :=
  match target with
  | .kindErr .badRequest _ _ _ => true
  | _ => false

/-- The inner JSON object written by WriteJSONError: the code and message
fields are always present; details is none when the key is omitted from the
object. -/
structure ErrorEnvelope where
  code : Int
  message : String
  details : Option (List String)
  deriving DecidableEq

/-- WriteJSONError from errors.go, modelled as the pair of the HTTP status
code written to the response and the JSON "error" object of the body: the
code is the httpCoder capability of the value, defaulting to 500; the
message is the printed form of the value; the details key is added only
when the httpErrorDetails capability yields a non-empty list. -/
def WriteJSONError (err : GoError) : Int × ErrorEnvelope :=
  let code : Int :=
    match httpCodeOf err with
    | some c => c
    | none => 500
  let details : List String :=
    match errorDetailsOf err with
    | some d => d
    | none => []
  let msg := errText err
  (code,
   { code := code
     message := msg
     details := if details.length > 0 then some details else none })

/-- Model of Go strconv.ParseBool: exactly the listed tokens parse. -/
def strconvParseBool (s : String) : Option Bool :=
  if s = "1" ∨ s = "t" ∨ s = "T" ∨ s = "true" ∨ s = "TRUE" ∨ s = "True" then some true
  else if s = "0" ∨ s = "f" ∨ s = "F" ∨ s = "false" ∨ s = "FALSE" ∨ s = "False" then some false
  else none

/-- Base-10 digit accumulation used by the strconv.ParseInt model: none when
the digit list is empty or contains a non-digit character. -/
def digitsToNat (l : List Char) : Option Nat :=
  if l.isEmpty then none
  else
    l.foldl
      (fun acc c =>
        match acc with
        | none => none
        | some n => if c.isDigit then some (n * 10 + (c.toNat - 48)) else none)
      (some 0)

/-- Model of Go strconv.ParseInt(s, 10, bitSize): an optional sign followed
by at least one base-10 digit, rejected when the value does not fit the
signed range of the bit width. -/
def strconvParseInt (s : String) (bitSize : Nat) : Option Int :=
  let bound : Nat := 2 ^ (bitSize - 1)
  match s.data with
  | [] => none
  | c :: rest =>
    let signDigits : Bool × List Char :=
      if c = '-' then (true, rest)
      else if c = '+' then (false, rest)
      else (false, c :: rest)
    match digitsToNat signDigits.2 with
    | none => none
    | some n =>
      if signDigits.1 then
        if n ≤ bound then some (-(n : Int)) else none
      else
        if n + 1 ≤ bound then some (n : Int) else none

/-- Model of Go strconv.Atoi on a 64-bit platform:
strconv.ParseInt(s, 10, 64). -/
def strconvAtoi (s : String) : Option Int :=
  strconvParseInt s 64

-- The accessors of params.go. The merged form lookup r.FormValue and the
-- query lookup r.URL.Query().Get are modelled as functions returning the
-- empty string for an absent key, exactly as in Go; the router variable
-- lookup on mux.Vars is modelled as an Option-returning function matching
-- the comma-ok map access of the source. Parsers for float, time and
-- duration values (strconv.ParseFloat, time.Parse, time.ParseDuration) are
-- external standard-library collaborators and are passed as explicit
-- function parameters; only their success or failure and the value they
-- produce matter to the claims.

/-- MustFormString from params.go. -/
def MustFormString (form : String → String) (key : String) : Except GoError String :=
  let v := form key
  if v = "" then .error (BadRequestError ("Missing parameter " ++ goQuote key) [] none)
  else .ok v

/-- MustFormBool from params.go. -/
def MustFormBool (form : String → String) (key : String) : Except GoError Bool :=
  let v := form key
  if v = "" then .error (BadRequestError ("Missing parameter " ++ goQuote key) [] none)
  else
    match strconvParseBool v with
    | none => .error (BadRequestError ("Invalid parameter " ++ goQuote key) [] none)
    | some f => .ok f

/-- MustFormInt from params.go. -/
def MustFormInt (form : String → String) (key : String) : Except GoError Int :=
  let v := form key
  if v = "" then .error (BadRequestError ("Missing parameter " ++ goQuote key) [] none)
  else
    match strconvAtoi v with
    | none => .error (BadRequestError ("Invalid parameter " ++ goQuote key) [] none)
    | some i => .ok i

/-- MustFormInt32 from params.go. -/
def MustFormInt32 (form : String → String) (key : String) : Except GoError Int :=
  let v := form key
  if v = "" then .error (BadRequestError ("Missing parameter " ++ goQuote key) [] none)
  else
    match strconvParseInt v 32 with
    | none => .error (BadRequestError ("Invalid parameter " ++ goQuote key) [] none)
    | some i => .ok i

/-- MustFormInt64 from params.go. -/
def MustFormInt64 (form : String → String) (key : String) : Except GoError Int :=
  let v := form key
  if v = "" then .error (BadRequestError ("Missing parameter " ++ goQuote key) [] none)
  else
    match strconvParseInt v 64 with
    | none => .error (BadRequestError ("Invalid parameter " ++ goQuote key) [] none)
    | some i => .ok i

/-- MustFormFloat32 from params.go, with strconv.ParseFloat(v, 32) passed as
the external parser. -/
def MustFormFloat32 {F32 : Type} (parseFloat32 : String → Option F32)
    (form : String → String) (key : String) : Except GoError F32 :=
  let v := form key
  if v = "" then .error (BadRequestError ("Missing parameter " ++ goQuote key) [] none)
  else
    match parseFloat32 v with
    | none => .error (BadRequestError ("Invalid parameter " ++ goQuote key) [] none)
    | some f => .ok f

/-- MustFormFloat64 from params.go, with strconv.ParseFloat(v, 64) passed as
the external parser. -/
def MustFormFloat64 {F64 : Type} (parseFloat64 : String → Option F64)
    (form : String → String) (key : String) : Except GoError F64 :=
  let v := form key
  if v = "" then .error (BadRequestError ("Missing parameter " ++ goQuote key) [] none)
  else
    match parseFloat64 v with
    | none => .error (BadRequestError ("Invalid parameter " ++ goQuote key) [] none)
    | some f => .ok f

/-- MustFormTime from params.go, with time.Parse passed as the external
parser (layout first, value second). -/
def MustFormTime {T : Type} (timeParse : String → String → Option T)
    (form : String → String) (key layout : String) : Except GoError T :=
  let v := form key
  if v = "" then .error (BadRequestError ("Missing parameter " ++ goQuote key) [] none)
  else
    match timeParse layout v with
    | none => .error (BadRequestError ("Invalid parameter " ++ goQuote key) [] none)
    | some t => .ok t

/-- MustFormDuration from params.go, with time.ParseDuration passed as the
external parser. -/
def MustFormDuration {D : Type} (parseDuration : String → Option D)
    (form : String → String) (key : String) : Except GoError D :=
  let v := form key
  if v = "" then .error (BadRequestError ("Missing parameter " ++ goQuote key) [] none)
  else
    match parseDuration v with
    | none => .error (BadRequestError ("Invalid parameter " ++ goQuote key) [] none)
    | some t => .ok t

/-- FormString from params.go. -/
def FormString (form : String → String) (key defaultValue : String) : String :=
  if form key ≠ "" then form key else defaultValue

/-- FormBool from params.go. -/
def FormBool (form : String → String) (key : String) (defaultValue : Bool) : Bool :=
  let v := form key
  if v = "" then defaultValue
  else
    match strconvParseBool v with
    | none => defaultValue
    | some f => f

/-- FormInt from params.go. -/
def FormInt (form : String → String) (key : String) (defaultValue : Int) : Int :=
  let v := form key
  if v = "" then defaultValue
  else
    match strconvAtoi v with
    | none => defaultValue
    | some i => i

/-- FormInt32 from params.go. -/
def FormInt32 (form : String → String) (key : String) (defaultValue : Int) : Int :=
  let v := form key
  if v = "" then defaultValue
  else
    match strconvParseInt v 32 with
    | none => defaultValue
    | some i => i

/-- FormInt64 from params.go. -/
def FormInt64 (form : String → String) (key : String) (defaultValue : Int) : Int :=
  let v := form key
  if v = "" then defaultValue
  else
    match strconvParseInt v 64 with
    | none => defaultValue
    | some i => i

/-- FormFloat32 from params.go, with the external float parser as a
parameter. -/
def FormFloat32 {F32 : Type} (parseFloat32 : String → Option F32)
    (form : String → String) (key : String) (defaultValue : F32) : F32 :=
  let v := form key
  if v = "" then defaultValue
  else
    match parseFloat32 v with
    | none => defaultValue
    | some f => f

/-- FormFloat64 from params.go, with the external float parser as a
parameter. -/
def FormFloat64 {F64 : Type} (parseFloat64 : String → Option F64)
    (form : String → String) (key : String) (defaultValue : F64) : F64 :=
  let v := form key
  if v = "" then defaultValue
  else
    match parseFloat64 v with
    | none => defaultValue
    | some f => f

/-- FormTime from params.go, with time.Parse as a parameter. -/
def FormTime {T : Type} (timeParse : String → String → Option T)
    (form : String → String) (key layout : String) (defaultValue : T) : T :=
  let v := form key
  if v = "" then defaultValue
  else
    match timeParse layout v with
    | none => defaultValue
    | some t => t

/-- FormDuration from params.go, with time.ParseDuration as a parameter. -/
def FormDuration {D : Type} (parseDuration : String → Option D)
    (form : String → String) (key : String) (defaultValue : D) : D :=
  let v := form key
  if v = "" then defaultValue
  else
    match parseDuration v with
    | none => defaultValue
    | some d => d

/-- MustQueryString from params.go. -/
def MustQueryString (query : String → String) (key : String) : Except GoError String :=
  let v := query key
  if v = "" then .error (BadRequestError ("Missing parameter " ++ goQuote key) [] none)
  else .ok v

/-- MustQueryBool from params.go. -/
def MustQueryBool (query : String → String) (key : String) : Except GoError Bool :=
  let v := query key
  if v = "" then .error (BadRequestError ("Missing parameter " ++ goQuote key) [] none)
  else
    match strconvParseBool v with
    | none => .error (BadRequestError ("Invalid parameter " ++ goQuote key) [] none)
    | some f => .ok f

/-- MustQueryInt from params.go. -/
def MustQueryInt (query : String → String) (key : String) : Except GoError Int :=
  let v := query key
  if v = "" then .error (BadRequestError ("Missing parameter " ++ goQuote key) [] none)
  else
    match strconvAtoi v with
    | none => .error (BadRequestError ("Invalid parameter " ++ goQuote key) [] none)
    | some i => .ok i

/-- MustQueryInt32 from params.go. -/
def MustQueryInt32 (query : String → String) (key : String) : Except GoError Int :=
  let v := query key
  if v = "" then .error (BadRequestError ("Missing parameter " ++ goQuote key) [] none)
  else
    match strconvParseInt v 32 with
    | none => .error (BadRequestError ("Invalid parameter " ++ goQuote key) [] none)
    | some i => .ok i

/-- MustQueryInt64 from params.go. -/
def MustQueryInt64 (query : String → String) (key : String) : Except GoError Int :=
  let v := query key
  if v = "" then .error (BadRequestError ("Missing parameter " ++ goQuote key) [] none)
  else
    match strconvParseInt v 64 with
    | none => .error (BadRequestError ("Invalid parameter " ++ goQuote key) [] none)
    | some i => .ok i

/-- MustQueryFloat32 from params.go. -/
def MustQueryFloat32 {F32 : Type} (parseFloat32 : String → Option F32)
    (query : String → String) (key : String) : Except GoError F32 :=
  let v := query key
  if v = "" then .error (BadRequestError ("Missing parameter " ++ goQuote key) [] none)
  else
    match parseFloat32 v with
    | none => .error (BadRequestError ("Invalid parameter " ++ goQuote key) [] none)
    | some f => .ok f

/-- MustQueryFloat64 from params.go. -/
def MustQueryFloat64 {F64 : Type} (parseFloat64 : String → Option F64)
    (query : String → String) (key : String) : Except GoError F64 :=
  let v := query key
  if v = "" then .error (BadRequestError ("Missing parameter " ++ goQuote key) [] none)
  else
    match parseFloat64 v with
    | none => .error (BadRequestError ("Invalid parameter " ++ goQuote key) [] none)
    | some f => .ok f

/-- MustQueryTime from params.go. -/
def MustQueryTime {T : Type} (timeParse : String → String → Option T)
    (query : String → String) (key layout : String) : Except GoError T :=
  let v := query key
  if v = "" then .error (BadRequestError ("Missing parameter " ++ goQuote key) [] none)
  else
    match timeParse layout v with
    | none => .error (BadRequestError ("Invalid parameter " ++ goQuote key) [] none)
    | some t => .ok t

/-- MustQueryDuration from params.go. -/
def MustQueryDuration {D : Type} (parseDuration : String → Option D)
    (query : String → String) (key : String) : Except GoError D :=
  let v := query key
  if v = "" then .error (BadRequestError ("Missing parameter " ++ goQuote key) [] none)
  else
    match parseDuration v with
    | none => .error (BadRequestError ("Invalid parameter " ++ goQuote key) [] none)
    | some d => .ok d

/-- QueryString from params.go. -/
def QueryString (query : String → String) (key defaultValue : String) : String :=
  let v := query key
  if v = "" then defaultValue else v

/-- QueryStringArray from params.go; strings.Split on a comma is modelled
with String.splitOn, which agrees with it for a non-empty separator. -/
def QueryStringArray (query : String → String) (key : String)
    (defaultValue : List String) : List String :=
  let v := query key
  if v = "" then defaultValue else v.splitOn ","

/-- QueryBool from params.go. -/
def QueryBool (query : String → String) (key : String) (defaultValue : Bool) : Bool :=
  let v := query key
  if v = "" then defaultValue
  else
    match strconvParseBool v with
    | none => defaultValue
    | some f => f

/-- QueryInt from params.go. -/
def QueryInt (query : String → String) (key : String) (defaultValue : Int) : Int :=
  let v := query key
  if v = "" then defaultValue
  else
    match strconvAtoi v with
    | none => defaultValue
    | some i => i

/-- QueryInt32 from params.go. -/
def QueryInt32 (query : String → String) (key : String) (defaultValue : Int) : Int :=
  let v := query key
  if v = "" then defaultValue
  else
    match strconvParseInt v 32 with
    | none => defaultValue
    | some i => i

/-- QueryInt64 from params.go. -/
def QueryInt64 (query : String → String) (key : String) (defaultValue : Int) : Int :=
  let v := query key
  if v = "" then defaultValue
  else
    match strconvParseInt v 64 with
    | none => defaultValue
    | some i => i

/-- QueryFloat32 from params.go. -/
def QueryFloat32 {F32 : Type} (parseFloat32 : String → Option F32)
    (query : String → String) (key : String) (defaultValue : F32) : F32 :=
  let v := query key
  if v = "" then defaultValue
  else
    match parseFloat32 v with
    | none => defaultValue
    | some f => f

/-- QueryFloat64 from params.go. -/
def QueryFloat64 {F64 : Type} (parseFloat64 : String → Option F64)
    (query : String → String) (key : String) (defaultValue : F64) : F64 :=
  let v := query key
  if v = "" then defaultValue
  else
    match parseFloat64 v with
    | none => defaultValue
    | some f => f

/-- QueryTimeWithDefault from params.go. -/
def QueryTimeWithDefault {T : Type} (timeParse : String → String → Option T)
    (query : String → String) (key layout : String) (defaultValue : T) : T :=
  let v := query key
  if v = "" then defaultValue
  else
    match timeParse layout v with
    | none => defaultValue
    | some t => t

/-- QueryDurationWithDefault from params.go. -/
def QueryDurationWithDefault {D : Type} (parseDuration : String → Option D)
    (query : String → String) (key : String) (defaultValue : D) : D :=
  let v := query key
  if v = "" then defaultValue
  else
    match parseDuration v with
    | none => defaultValue
    | some d => d

/-- MustParamsString from params.go; the comma-ok lookup on mux.Vars is the
Option match. -/
def MustParamsString (vars : String → Option String) (key : String) : Except GoError String :=
  match vars key with
  | none => .error (BadRequestError ("Missing parameter " ++ goQuote key) [] none)
  | some v =>
    if v = "" then .error (BadRequestError ("Missing parameter " ++ goQuote key) [] none)
    else .ok v

/-- MustParamsBool from params.go. -/
def MustParamsBool (vars : String → Option String) (key : String) : Except GoError Bool :=
  match vars key with
  | none => .error (BadRequestError ("Missing parameter " ++ goQuote key) [] none)
  | some v =>
    if v = "" then .error (BadRequestError ("Missing parameter " ++ goQuote key) [] none)
    else
      match strconvParseBool v with
      | none => .error (BadRequestError ("Invalid parameter " ++ goQuote key) [] none)
      | some f => .ok f

/-- MustParamsInt from params.go. -/
def MustParamsInt (vars : String → Option String) (key : String) : Except GoError Int :=
  match vars key with
  | none => .error (BadRequestError ("Missing parameter " ++ goQuote key) [] none)
  | some v =>
    if v = "" then .error (BadRequestError ("Missing parameter " ++ goQuote key) [] none)
    else
      match strconvAtoi v with
      | none => .error (BadRequestError ("Invalid parameter " ++ goQuote key) [] none)
      | some i => .ok i

/-- MustParamsInt32 from params.go. -/
def MustParamsInt32 (vars : String → Option String) (key : String) : Except GoError Int :=
  match vars key with
  | none => .error (BadRequestError ("Missing parameter " ++ goQuote key) [] none)
  | some v =>
    if v = "" then .error (BadRequestError ("Missing parameter " ++ goQuote key) [] none)
    else
      match strconvParseInt v 32 with
      | none => .error (BadRequestError ("Invalid parameter " ++ goQuote key) [] none)
      | some i => .ok i

/-- MustParamsInt64 from params.go. -/
def MustParamsInt64 (vars : String → Option String) (key : String) : Except GoError Int :=
  match vars key with
  | none => .error (BadRequestError ("Missing parameter " ++ goQuote key) [] none)
  | some v =>
    if v = "" then .error (BadRequestError ("Missing parameter " ++ goQuote key) [] none)
    else
      match strconvParseInt v 64 with
      | none => .error (BadRequestError ("Invalid parameter " ++ goQuote key) [] none)
      | some i => .ok i

/-- MustParamsFloat32 from params.go. -/
def MustParamsFloat32 {F32 : Type} (parseFloat32 : String → Option F32)
    (vars : String → Option String) (key : String) : Except GoError F32 :=
  match vars key with
  | none => .error (BadRequestError ("Missing parameter " ++ goQuote key) [] none)
  | some v =>
    if v = "" then .error (BadRequestError ("Missing parameter " ++ goQuote key) [] none)
    else
      match parseFloat32 v with
      | none => .error (BadRequestError ("Invalid parameter " ++ goQuote key) [] none)
      | some f => .ok f

/-- MustParamsFloat64 from params.go. -/
def MustParamsFloat64 {F64 : Type} (parseFloat64 : String → Option F64)
    (vars : String → Option String) (key : String) : Except GoError F64 :=
  match vars key with
  | none => .error (BadRequestError ("Missing parameter " ++ goQuote key) [] none)
  | some v =>
    if v = "" then .error (BadRequestError ("Missing parameter " ++ goQuote key) [] none)
    else
      match parseFloat64 v with
      | none => .error (BadRequestError ("Invalid parameter " ++ goQuote key) [] none)
      | some f => .ok f

/-- MustParamsTime from params.go. -/
def MustParamsTime {T : Type} (timeParse : String → String → Option T)
    (vars : String → Option String) (key layout : String) : Except GoError T :=
  match vars key with
  | none => .error (BadRequestError ("Missing parameter " ++ goQuote key) [] none)
  | some v =>
    if v = "" then .error (BadRequestError ("Missing parameter " ++ goQuote key) [] none)
    else
      match timeParse layout v with
      | none => .error (BadRequestError ("Invalid parameter " ++ goQuote key) [] none)
      | some t => .ok t

/-- MustParamsDuration from params.go. -/
def MustParamsDuration {D : Type} (parseDuration : String → Option D)
    (vars : String → Option String) (key : String) : Except GoError D :=
  match vars key with
  | none => .error (BadRequestError ("Missing parameter " ++ goQuote key) [] none)
  | some v =>
    if v = "" then .error (BadRequestError ("Missing parameter " ++ goQuote key) [] none)
    else
      match parseDuration v with
      | none => .error (BadRequestError ("Invalid parameter " ++ goQuote key) [] none)
      | some d => .ok d

/-- ParamsInt from params.go: a missing, empty or unparseable routing
variable yields the default. -/
def ParamsInt (vars : String → Option String) (key : String) (defaultValue : Int) : Int :=
  match vars key with
  | none => defaultValue
  | some v =>
    if v = "" then defaultValue
    else
      match strconvAtoi v with
      | none => defaultValue
      | some i => i

/-- ParamsInt32 from params.go. -/
def ParamsInt32 (vars : String → Option String) (key : String) (defaultValue : Int) : Int :=
  match vars key with
  | none => defaultValue
  | some v =>
    if v = "" then defaultValue
    else
      match strconvParseInt v 32 with
      | none => defaultValue
      | some i => i

/-- ParamsInt64 from params.go. -/
def ParamsInt64 (vars : String → Option String) (key : String) (defaultValue : Int) : Int :=
  match vars key with
  | none => defaultValue
  | some v =>
    if v = "" then defaultValue
    else
      match strconvParseInt v 64 with
      | none => defaultValue
      | some i => i

/-- ParamsFloat32 from params.go. -/
def ParamsFloat32 {F32 : Type} (parseFloat32 : String → Option F32)
    (vars : String → Option String) (key : String) (defaultValue : F32) : F32 :=
  match vars key with
  | none => defaultValue
  | some v =>
    if v = "" then defaultValue
    else
      match parseFloat32 v with
      | none => defaultValue
      | some f => f

/-- ParamsFloat64 from params.go. -/
def ParamsFloat64 {F64 : Type} (parseFloat64 : String → Option F64)
    (vars : String → Option String) (key : String) (defaultValue : F64) : F64 :=
  match vars key with
  | none => defaultValue
  | some v =>
    if v = "" then defaultValue
    else
      match parseFloat64 v with
      | none => defaultValue
      | some f => f

/-- Byte-count truncation of a body, the model of io.LimitReader: the first
n characters of the string. -/
def goTake (s : String) (n : Nat) : String :=
  String.mk (s.data.take n)

/-- Result of one run of the external JSON decoder (encoding/json) on the
reader it is handed: success, or failure carrying the text of the decode
error together with the number of bytes the decoder had read from the
reader when it stopped (these are exactly the bytes the TeeReader has
copied into the scratch buffer). -/
inductive DecodeResult where
  | ok
  | fail (msg : String) (consumed : Nat)

/-- ReadJSON from httputil.go. The process-wide byteBufPool is modelled as
the stack of its idle buffers: Get takes the top buffer or allocates an
empty one, and the deferred Reset and Put push the emptied buffer back on
every exit path. The decoder runs on at most the first 8 MiB (8388608
bytes) of the body, as enforced by the LimitReader; on failure the returned
error text embeds the decode error and the bytes staged in the buffer.
Returns the error result (none on success) and the pool after the call. -/
def ReadJSON (dec : String → DecodeResult) (pool : List String) (body : String) :
    Option String × List String :=
  let buf := pool.headD ""
  let rest := pool.drop 1
  let limited := goTake body 8388608
  match dec limited with
  | .ok => (none, "" :: rest)
  | .fail msg consumed =>
    (some ("invalid JSON data: " ++ msg ++ ", on input: " ++ (buf ++ goTake limited consumed)),
     "" :: rest)

/-- Model of Go strings.ToLower for the ASCII range: every character is
lowered individually. -/
def strToLower (s : String) : String :=
  String.mk (s.data.map Char.toLower)

/-- Model of Go strings.HasPrefix on character sequences. -/
def strStartsWith (s lead : String) : Bool :=
  s.data.take lead.data.length == lead.data

/-- Model of the Go slice expression s[n:] on character sequences. -/
def strDrop (s : String) (n : Nat) : String :=
  String.mk (s.data.drop n)

/-- BearerToken from bearer_token.go, as a function of the Authorization
header value: a case-insensitive match of the 7-character lead "bearer "
followed by a non-empty remainder returns that remainder verbatim. -/
def BearerToken (auth : String) : String × Bool :=
  if auth = "" ∨ ¬ (strStartsWith (strToLower auth) "bearer " = true) then ("", false)
  else
    let ts := strDrop auth ("bearer " : String).length
    if ts = "" then ("", false) else (ts, true)

-- Behavioral contracts used to state the claims about whole accessor
-- families. In each one, raw is the raw string the accessor finds for the
-- key and parsed is what the relevant type parser yields on it.

/-- Contract of a Must accessor: an absent or empty raw value raises the
Missing panic, a present value the parser rejects raises the Invalid panic,
and a present parseable value is returned; the raised values are the
BadRequestError panics of params.go. -/
def MustBehavior {α : Type} (key raw : String) (parsed : Option α)
    (res : Except GoError α) : Prop :=
  (raw = "" →
    res = .error (BadRequestError ("Missing parameter " ++ goQuote key) [] none)) ∧
  (raw ≠ "" → parsed = none →
    res = .error (BadRequestError ("Invalid parameter " ++ goQuote key) [] none)) ∧
  (∀ x, raw ≠ "" → parsed = some x → res = .ok x)

/-- Contract of a default-mode accessor over a form or query lookup: an
absent or empty raw value and a parse failure both yield the default, and a
parse success yields the parsed value; no other outcome exists. -/
def DefaultBehaviorStr {α : Type} (raw : String) (parsed : Option α)
    (defaultValue res : α) : Prop :=
  (raw = "" → res = defaultValue) ∧
  (raw ≠ "" → parsed = none → res = defaultValue) ∧
  (∀ x, raw ≠ "" → parsed = some x → res = x)

/-- Contract of a default-mode accessor over the routing-variable lookup:
an absent key, an empty value and a parse failure all yield the default,
and a parse success yields the parsed value. -/
def DefaultVarsBehavior {α : Type} (raw : Option String) (parsed : Option α)
    (defaultValue res : α) : Prop :=
  (raw = none → res = defaultValue) ∧
  (raw = some "" → res = defaultValue) ∧
  (∀ v, raw = some v → v ≠ "" → parsed = none → res = defaultValue) ∧
  (∀ v x, raw = some v → v ≠ "" → parsed = some x → res = x)

theorem writeJSONError_eq (e : GoError) :
    WriteJSONError e =
      ((httpCodeOf e).getD 500,
       { code := (httpCodeOf e).getD 500
         message := errText e
         details :=
           if ((errorDetailsOf e).getD []).length > 0
           then some ((errorDetailsOf e).getD []) else none }) := by
  cases he : httpCodeOf e <;> cases hd : errorDetailsOf e <;>
    simp [WriteJSONError, he, hd]

/-- C4: for every defined error kind, the HTTPCode method returns that kind
fixed compile-time status code, and the Error method returns the Message
field when it is non-empty and otherwise exactly the standard reason phrase
of that status code; every kind has a non-empty reason phrase, and in
particular a BadRequestError with empty message prints "Bad Request". -/
theorem c4_error_kind_code_and_text :
    (∀ (k : ErrKind) (m : String) (d : List String) (er : Option GoError),
        httpCodeOf (.kindErr k m d er) = some (errKindCode k) ∧
        errText (.kindErr k m d er) =
          (if m = "" then statusText (errKindCode k) else m)) ∧
    (∀ k : ErrKind, statusText (errKindCode k) ≠ "") ∧
    errKindCode .badRequest = 400 ∧
    errKindCode .notFound = 404 ∧
    errKindCode .tooManyRequests = 429 ∧
    errText (BadRequestError "" [] none) = "Bad Request" := by
  refine ⟨fun k m d er => ⟨rfl, rfl⟩, fun k => ?_, rfl, rfl, rfl, ?_⟩
  · cases k <;> decide
  · decide

/-- C4 witness: the concrete fallback text of an empty BadRequestError,
through the theorem. -/
theorem c4_error_kind_code_and_text_witness :
    errText (BadRequestError "" [] none) = "Bad Request" :=
  c4_error_kind_code_and_text.2.2.2.2.2

/-- C5: for every parameter name, the text of MissingParameterError is the
name formatted into the template of a missing parameter and the text of
InvalidParameterError into that of an invalid one, both carry HTTP status
400, and unwrapping either yields a BadRequestError whose Message is that
same string, so one step of the cause chain reaches a matching
BadRequestError; the quoted forms are checked on the concrete name used by
the specification. -/
theorem c5_parameter_error_text_code_unwrap :
    (∀ n : String,
      errText (MissingParameterError n) = "Missing parameter " ++ goQuote n ∧
      errText (InvalidParameterError n) = "Invalid parameter " ++ goQuote n ∧
      httpCodeOf (MissingParameterError n) = some 400 ∧
      httpCodeOf (InvalidParameterError n) = some 400 ∧
      unwrapErr (MissingParameterError n) =
        some (BadRequestError (errText (MissingParameterError n)) [] none) ∧
      unwrapErr (InvalidParameterError n) =
        some (BadRequestError (errText (InvalidParameterError n)) [] none)) ∧
    errText (MissingParameterError "name") = "Missing parameter \"name\"" ∧
    errText (InvalidParameterError "name") = "Invalid parameter \"name\"" := by
  refine ⟨fun n => ⟨rfl, rfl, rfl, rfl, rfl, rfl⟩, ?_, ?_⟩
  · decide
  · decide

/-- C5 witness: the concrete text of the missing-parameter error, through
the theorem. -/
theorem c5_parameter_error_text_code_unwrap_witness :
    errText (MissingParameterError "name") = "Missing parameter \"name\"" :=
  c5_parameter_error_text_code_unwrap.2.1

/-- C6: for every error value, WriteJSONError writes the status code of the
value (500 when it has no httpCoder capability), the same code and the
printed text inside the envelope, and the details key only when the value
exposes a non-empty details list; the details key is never an empty list. -/
theorem c6_write_json_error_shape :
    ∀ e : GoError,
      (WriteJSONError e).1 = (httpCodeOf e).getD 500 ∧
      (WriteJSONError e).2.code = (WriteJSONError e).1 ∧
      (WriteJSONError e).2.message = errText e ∧
      (WriteJSONError e).2.details =
        (if ((errorDetailsOf e).getD []).length > 0
         then some ((errorDetailsOf e).getD []) else none) ∧
      (WriteJSONError e).2.details ≠ some [] := by
  intro e
  rw [writeJSONError_eq e]
  refine ⟨rfl, rfl, rfl, rfl, ?_⟩
  cases hl : (errorDetailsOf e).getD [] with
  | nil => simp
  | cons a l => simp

/-- C6 witness: an error without the status-code capability is written with
code 500, through the theorem. -/
theorem c6_write_json_error_shape_witness :
    (WriteJSONError (GoError.plainValue "boom")).1 = 500 := by
  have h := c6_write_json_error_shape (GoError.plainValue "boom")
  rw [h.1]
  rfl

/-- C9: InvalidMethodError is definitionally MethodNotAllowedError and
ServerError definitionally InternalServerError, so for equal field values
the two names agree on status code (405 and 500), on the message fallback,
on the details list and on the wrapped cause. -/
theorem c9_alias_equivalence :
    InvalidMethodError = MethodNotAllowedError ∧
    ServerError = InternalServerError ∧
    (∀ (m : String) (d : List String) (er : Option GoError),
      InvalidMethodError m d er = MethodNotAllowedError m d er ∧
      httpCodeOf (InvalidMethodError m d er) = some 405 ∧
      errText (InvalidMethodError m d er) = (if m = "" then "Method Not Allowed" else m) ∧
      errorDetailsOf (InvalidMethodError m d er) = some d ∧
      unwrapErr (InvalidMethodError m d er) = er ∧
      ServerError m d er = InternalServerError m d er ∧
      httpCodeOf (ServerError m d er) = some 500 ∧
      errText (ServerError m d er) = (if m = "" then "Internal Server Error" else m) ∧
      errorDetailsOf (ServerError m d er) = some d ∧
      unwrapErr (ServerError m d er) = er) := by
  refine ⟨rfl, rfl, fun m d er => ⟨rfl, rfl, ?_, rfl, rfl, rfl, rfl, ?_, rfl, rfl⟩⟩
  · by_cases h : m = ""
    · subst h
      rfl
    · simp [InvalidMethodError, MethodNotAllowedError, errText, h]
  · by_cases h : m = ""
    · subst h
      rfl
    · simp [ServerError, InternalServerError, errText, h]

/-- C9 witness: the alias carries status 405, through the theorem. -/
theorem c9_alias_equivalence_witness :
    httpCodeOf (InvalidMethodError "" [] none) = some 405 :=
  (c9_alias_equivalence.2.2 "" [] none).2.1

/-- C10: the Is method of MissingParameterError and of
InvalidParameterError answers true on every target of dynamic type
BadRequestError, whatever Message and Details the target carries. -/
theorem c10_is_bad_request_any_target :
    ∀ (n m : String) (d : List String) (er : Option GoError),
      MissingParameterErrorIs n (BadRequestError m d er) = true ∧
      InvalidParameterErrorIs n (BadRequestError m d er) = true :=
  fun _ _ _ _ => ⟨rfl, rfl⟩

/-- C10 witness: matching succeeds against a BadRequestError whose message
differs from the parameter error text, through the theorem. -/
theorem c10_is_bad_request_any_target_witness :
    MissingParameterErrorIs "name" (BadRequestError "unrelated message" ["x"] none) = true :=
  (c10_is_bad_request_any_target "name" "unrelated message" ["x"] none).1

/-- C7: ReadJSON hands the decoder at most the first 8 MiB of the body; a
successful decode returns no error; a failed decode returns an error whose
text embeds the decoder error text and the bytes staged in the scratch
buffer (its prior content followed by the consumed part of the truncated
body); and on every exit path the buffer taken from the pool comes back
reset, so the pool ends as an emptied buffer on top of the remaining ones. -/
theorem c7_read_json_spec :
    ∀ (dec : String → DecodeResult) (pool : List String) (body : String),
      (ReadJSON dec pool body).2 = "" :: pool.drop 1 ∧
      (dec (goTake body 8388608) = .ok → (ReadJSON dec pool body).1 = none) ∧
      (∀ msg consumed, dec (goTake body 8388608) = .fail msg consumed →
        (ReadJSON dec pool body).1 =
          some ("invalid JSON data: " ++ msg ++ ", on input: " ++
            (pool.headD "" ++ goTake (goTake body 8388608) consumed))) := by
  intro dec pool body
  refine ⟨?_, ?_, ?_⟩
  · unfold ReadJSON
    cases h : dec (goTake body 8388608) <;> simp [h]
  · intro h
    simp [ReadJSON, h]
  · intro msg consumed h
    simp [ReadJSON, h]

/-- C7 witness: a decoder that always fails after reading the whole
truncated body produces the diagnostic error embedding the body, and the
pool ends with one reset buffer, through the theorem. -/
theorem c7_read_json_spec_witness :
    ReadJSON (fun s => DecodeResult.fail "boom" s.length) [] "abc" =
      (some "invalid JSON data: boom, on input: abc", [""]) := by
  have h := c7_read_json_spec (fun s => DecodeResult.fail "boom" s.length) [] "abc"
  have h2 := h.2.2 "boom" 3
    (by rw [show (goTake "abc" 8388608).length = 3 from rfl])
  refine Prod.ext ?_ ?_
  · rw [h2]
    rfl
  · rw [h.1]
    rfl

theorem bearerToken_eq (auth : String) :
    BearerToken auth =
      (if strStartsWith (strToLower auth) "bearer " = true ∧ strDrop auth 7 ≠ ""
       then (strDrop auth 7, true) else ("", false)) := by
  have hlen : ("bearer " : String).length = 7 := rfl
  unfold BearerToken
  by_cases h0 : strStartsWith (strToLower auth) "bearer " = true
  · have hne : auth ≠ "" := by
      intro h
      rw [h] at h0
      exact absurd h0 (by decide)
    by_cases hts : strDrop auth 7 = "" <;> simp [h0, hne, hts, hlen]
  · simp [h0]

/-- C8: BearerToken returns the verbatim remainder after the 7-character
lead and the flag true exactly when the Authorization header value starts,
case-insensitively, with the bearer lead and a non-empty token follows; in
every other case it returns the empty string and false. -/
theorem c8_bearer_token_spec :
    ∀ auth t : String,
      (BearerToken auth = (t, true) ↔
        (strStartsWith (strToLower auth) "bearer " = true ∧
          t = strDrop auth 7 ∧ t ≠ "")) ∧
      ((strStartsWith (strToLower auth) "bearer " = true ∧ strDrop auth 7 ≠ "") ∨
        BearerToken auth = ("", false)) := by
  intro auth t
  rw [bearerToken_eq auth]
  constructor
  · constructor
    · intro hbt
      by_cases hc : strStartsWith (strToLower auth) "bearer " = true ∧ strDrop auth 7 ≠ ""
      · rw [if_pos hc] at hbt
        have h1 : strDrop auth 7 = t := congrArg Prod.fst hbt
        refine ⟨hc.1, h1.symm, ?_⟩
        rw [← h1]
        exact hc.2
      · rw [if_neg hc] at hbt
        have h2 : (false : Bool) = true := congrArg Prod.snd hbt
        cases h2
    · intro hp
      obtain ⟨h0, ht, hne⟩ := hp
      have hc : strStartsWith (strToLower auth) "bearer " = true ∧ strDrop auth 7 ≠ "" :=
        ⟨h0, fun h => hne (ht.trans h)⟩
      rw [if_pos hc, ← ht]
  · by_cases hc : strStartsWith (strToLower auth) "bearer " = true ∧ strDrop auth 7 ≠ ""
    · exact Or.inl hc
    · exact Or.inr (if_neg hc)

/-- C8 witness: the canonical header yields the verbatim token, through the
theorem. -/
theorem c8_bearer_token_spec_witness :
    BearerToken "Bearer secret" = ("secret", true) :=
  ((c8_bearer_token_spec "Bearer secret" "secret").1).mpr
    ⟨by decide, by decide, by decide⟩

theorem paramsInt_defaultSpec (vars : String → Option String) (key : String) (d : Int) :
    DefaultVarsBehavior (vars key) (strconvAtoi ((vars key).getD "")) d
      (ParamsInt vars key d) := by
  cases hv : vars key with
  | none =>
    refine ⟨fun _ => ?_, fun h => ?_, fun v h hne hp => ?_, fun v x h hne hp => ?_⟩
    · simp [ParamsInt, hv]
    · exact Option.noConfusion h
    · exact Option.noConfusion h
    · exact Option.noConfusion h
  | some w =>
    refine ⟨fun h => ?_, fun h => ?_, fun v h hne hp => ?_, fun v x h hne hp => ?_⟩
    · exact Option.noConfusion h
    · injection h with hw
      subst hw
      simp [ParamsInt, hv]
    · injection h with hw
      subst hw
      simp only [Option.getD_some] at hp
      simp [ParamsInt, hv, hne, hp]
    · injection h with hw
      subst hw
      simp only [Option.getD_some] at hp
      simp [ParamsInt, hv, hne, hp]

theorem paramsInt32_defaultSpec (vars : String → Option String) (key : String) (d : Int) :
    DefaultVarsBehavior (vars key) (strconvParseInt ((vars key).getD "") 32) d
      (ParamsInt32 vars key d) := by
  cases hv : vars key with
  | none =>
    refine ⟨fun _ => ?_, fun h => ?_, fun v h hne hp => ?_, fun v x h hne hp => ?_⟩
    · simp [ParamsInt32, hv]
    · exact Option.noConfusion h
    · exact Option.noConfusion h
    · exact Option.noConfusion h
  | some w =>
    refine ⟨fun h => ?_, fun h => ?_, fun v h hne hp => ?_, fun v x h hne hp => ?_⟩
    · exact Option.noConfusion h
    · injection h with hw
      subst hw
      simp [ParamsInt32, hv]
    · injection h with hw
      subst hw
      simp only [Option.getD_some] at hp
      simp [ParamsInt32, hv, hne, hp]
    · injection h with hw
      subst hw
      simp only [Option.getD_some] at hp
      simp [ParamsInt32, hv, hne, hp]

theorem paramsInt64_defaultSpec (vars : String → Option String) (key : String) (d : Int) :
    DefaultVarsBehavior (vars key) (strconvParseInt ((vars key).getD "") 64) d
      (ParamsInt64 vars key d) := by
  cases hv : vars key with
  | none =>
    refine ⟨fun _ => ?_, fun h => ?_, fun v h hne hp => ?_, fun v x h hne hp => ?_⟩
    · simp [ParamsInt64, hv]
    · exact Option.noConfusion h
    · exact Option.noConfusion h
    · exact Option.noConfusion h
  | some w =>
    refine ⟨fun h => ?_, fun h => ?_, fun v h hne hp => ?_, fun v x h hne hp => ?_⟩
    · exact Option.noConfusion h
    · injection h with hw
      subst hw
      simp [ParamsInt64, hv]
    · injection h with hw
      subst hw
      simp only [Option.getD_some] at hp
      simp [ParamsInt64, hv, hne, hp]
    · injection h with hw
      subst hw
      simp only [Option.getD_some] at hp
      simp [ParamsInt64, hv, hne, hp]

theorem paramsFloat32_defaultSpec {F32 : Type} (pf32 : String → Option F32)
    (vars : String → Option String) (key : String) (d : F32) :
    DefaultVarsBehavior (vars key) (pf32 ((vars key).getD "")) d
      (ParamsFloat32 pf32 vars key d) := by
  cases hv : vars key with
  | none =>
    refine ⟨fun _ => ?_, fun h => ?_, fun v h hne hp => ?_, fun v x h hne hp => ?_⟩
    · simp [ParamsFloat32, hv]
    · exact Option.noConfusion h
    · exact Option.noConfusion h
    · exact Option.noConfusion h
  | some w =>
    refine ⟨fun h => ?_, fun h => ?_, fun v h hne hp => ?_, fun v x h hne hp => ?_⟩
    · exact Option.noConfusion h
    · injection h with hw
      subst hw
      simp [ParamsFloat32, hv]
    · injection h with hw
      subst hw
      simp only [Option.getD_some] at hp
      simp [ParamsFloat32, hv, hne, hp]
    · injection h with hw
      subst hw
      simp only [Option.getD_some] at hp
      simp [ParamsFloat32, hv, hne, hp]

theorem paramsFloat64_defaultSpec {F64 : Type} (pf64 : String → Option F64)
    (vars : String → Option String) (key : String) (d : F64) :
    DefaultVarsBehavior (vars key) (pf64 ((vars key).getD "")) d
      (ParamsFloat64 pf64 vars key d) := by
  cases hv : vars key with
  | none =>
    refine ⟨fun _ => ?_, fun h => ?_, fun v h hne hp => ?_, fun v x h hne hp => ?_⟩
    · simp [ParamsFloat64, hv]
    · exact Option.noConfusion h
    · exact Option.noConfusion h
    · exact Option.noConfusion h
  | some w =>
    refine ⟨fun h => ?_, fun h => ?_, fun v h hne hp => ?_, fun v x h hne hp => ?_⟩
    · exact Option.noConfusion h
    · injection h with hw
      subst hw
      simp [ParamsFloat64, hv]
    · injection h with hw
      subst hw
      simp only [Option.getD_some] at hp
      simp [ParamsFloat64, hv, hne, hp]
    · injection h with hw
      subst hw
      simp only [Option.getD_some] at hp
      simp [ParamsFloat64, hv, hne, hp]

theorem mustFormString_spec (form : String → String) (key : String) :
    MustBehavior key (form key) (some (form key)) (MustFormString form key) := by
  refine ⟨fun h => ?_, fun h hp => ?_, fun x h hp => ?_⟩
  · simp [MustFormString, h]
  · simp at hp
  · injection hp with hx
    subst hx
    simp [MustFormString, h]

theorem mustFormBool_spec (form : String → String) (key : String) :
    MustBehavior key (form key) (strconvParseBool (form key)) (MustFormBool form key) := by
  refine ⟨fun h => ?_, fun h hp => ?_, fun x h hp => ?_⟩
  · simp [MustFormBool, h]
  · simp [MustFormBool, h, hp]
  · simp [MustFormBool, h, hp]

theorem mustFormInt_spec (form : String → String) (key : String) :
    MustBehavior key (form key) (strconvAtoi (form key)) (MustFormInt form key) := by
  refine ⟨fun h => ?_, fun h hp => ?_, fun x h hp => ?_⟩
  · simp [MustFormInt, h]
  · simp [MustFormInt, h, hp]
  · simp [MustFormInt, h, hp]

theorem mustFormInt32_spec (form : String → String) (key : String) :
    MustBehavior key (form key) (strconvParseInt (form key) 32) (MustFormInt32 form key) := by
  refine ⟨fun h => ?_, fun h hp => ?_, fun x h hp => ?_⟩
  · simp [MustFormInt32, h]
  · simp [MustFormInt32, h, hp]
  · simp [MustFormInt32, h, hp]

theorem mustFormInt64_spec (form : String → String) (key : String) :
    MustBehavior key (form key) (strconvParseInt (form key) 64) (MustFormInt64 form key) := by
  refine ⟨fun h => ?_, fun h hp => ?_, fun x h hp => ?_⟩
  · simp [MustFormInt64, h]
  · simp [MustFormInt64, h, hp]
  · simp [MustFormInt64, h, hp]

theorem mustFormFloat32_spec {F32 : Type} (pf32 : String → Option F32)
    (form : String → String) (key : String) :
    MustBehavior key (form key) (pf32 (form key)) (MustFormFloat32 pf32 form key) := by
  refine ⟨fun h => ?_, fun h hp => ?_, fun x h hp => ?_⟩
  · simp [MustFormFloat32, h]
  · simp [MustFormFloat32, h, hp]
  · simp [MustFormFloat32, h, hp]

theorem mustFormFloat64_spec {F64 : Type} (pf64 : String → Option F64)
    (form : String → String) (key : String) :
    MustBehavior key (form key) (pf64 (form key)) (MustFormFloat64 pf64 form key) := by
  refine ⟨fun h => ?_, fun h hp => ?_, fun x h hp => ?_⟩
  · simp [MustFormFloat64, h]
  · simp [MustFormFloat64, h, hp]
  · simp [MustFormFloat64, h, hp]

theorem mustFormTime_spec {T : Type} (pt : String → String → Option T)
    (form : String → String) (key layout : String) :
    MustBehavior key (form key) (pt layout (form key)) (MustFormTime pt form key layout) := by
  refine ⟨fun h => ?_, fun h hp => ?_, fun x h hp => ?_⟩
  · simp [MustFormTime, h]
  · simp [MustFormTime, h, hp]
  · simp [MustFormTime, h, hp]

theorem mustFormDuration_spec {D : Type} (pd : String → Option D)
    (form : String → String) (key : String) :
    MustBehavior key (form key) (pd (form key)) (MustFormDuration pd form key) := by
  refine ⟨fun h => ?_, fun h hp => ?_, fun x h hp => ?_⟩
  · simp [MustFormDuration, h]
  · simp [MustFormDuration, h, hp]
  · simp [MustFormDuration, h, hp]

theorem mustQueryString_spec (query : String → String) (key : String) :
    MustBehavior key (query key) (some (query key)) (MustQueryString query key) := by
  refine ⟨fun h => ?_, fun h hp => ?_, fun x h hp => ?_⟩
  · simp [MustQueryString, h]
  · simp at hp
  · injection hp with hx
    subst hx
    simp [MustQueryString, h]

theorem mustQueryBool_spec (query : String → String) (key : String) :
    MustBehavior key (query key) (strconvParseBool (query key)) (MustQueryBool query key) := by
  refine ⟨fun h => ?_, fun h hp => ?_, fun x h hp => ?_⟩
  · simp [MustQueryBool, h]
  · simp [MustQueryBool, h, hp]
  · simp [MustQueryBool, h, hp]

theorem mustQueryInt_spec (query : String → String) (key : String) :
    MustBehavior key (query key) (strconvAtoi (query key)) (MustQueryInt query key) := by
  refine ⟨fun h => ?_, fun h hp => ?_, fun x h hp => ?_⟩
  · simp [MustQueryInt, h]
  · simp [MustQueryInt, h, hp]
  · simp [MustQueryInt, h, hp]

theorem mustQueryInt32_spec (query : String → String) (key : String) :
    MustBehavior key (query key) (strconvParseInt (query key) 32) (MustQueryInt32 query key) := by
  refine ⟨fun h => ?_, fun h hp => ?_, fun x h hp => ?_⟩
  · simp [MustQueryInt32, h]
  · simp [MustQueryInt32, h, hp]
  · simp [MustQueryInt32, h, hp]

theorem mustQueryInt64_spec (query : String → String) (key : String) :
    MustBehavior key (query key) (strconvParseInt (query key) 64) (MustQueryInt64 query key) := by
  refine ⟨fun h => ?_, fun h hp => ?_, fun x h hp => ?_⟩
  · simp [MustQueryInt64, h]
  · simp [MustQueryInt64, h, hp]
  · simp [MustQueryInt64, h, hp]

theorem mustQueryFloat32_spec {F32 : Type} (pf32 : String → Option F32)
    (query : String → String) (key : String) :
    MustBehavior key (query key) (pf32 (query key)) (MustQueryFloat32 pf32 query key) := by
  refine ⟨fun h => ?_, fun h hp => ?_, fun x h hp => ?_⟩
  · simp [MustQueryFloat32, h]
  · simp [MustQueryFloat32, h, hp]
  · simp [MustQueryFloat32, h, hp]

theorem mustQueryFloat64_spec {F64 : Type} (pf64 : String → Option F64)
    (query : String → String) (key : String) :
    MustBehavior key (query key) (pf64 (query key)) (MustQueryFloat64 pf64 query key) := by
  refine ⟨fun h => ?_, fun h hp => ?_, fun x h hp => ?_⟩
  · simp [MustQueryFloat64, h]
  · simp [MustQueryFloat64, h, hp]
  · simp [MustQueryFloat64, h, hp]

theorem mustQueryTime_spec {T : Type} (pt : String → String → Option T)
    (query : String → String) (key layout : String) :
    MustBehavior key (query key) (pt layout (query key)) (MustQueryTime pt query key layout) := by
  refine ⟨fun h => ?_, fun h hp => ?_, fun x h hp => ?_⟩
  · simp [MustQueryTime, h]
  · simp [MustQueryTime, h, hp]
  · simp [MustQueryTime, h, hp]

theorem mustQueryDuration_spec {D : Type} (pd : String → Option D)
    (query : String → String) (key : String) :
    MustBehavior key (query key) (pd (query key)) (MustQueryDuration pd query key) := by
  refine ⟨fun h => ?_, fun h hp => ?_, fun x h hp => ?_⟩
  · simp [MustQueryDuration, h]
  · simp [MustQueryDuration, h, hp]
  · simp [MustQueryDuration, h, hp]

theorem mustParamsString_spec (vars : String → Option String) (key : String) :
    MustBehavior key ((vars key).getD "") (some ((vars key).getD "")) (MustParamsString vars key) := by
  cases hv : vars key with
  | none =>
    refine ⟨fun _ => ?_, fun h hp => ?_, fun x h hp => ?_⟩
    · simp [MustParamsString, hv]
    · exact absurd rfl h
    · exact absurd rfl h
  | some w =>
    simp only [Option.getD_some]
    refine ⟨fun h => ?_, fun h hp => ?_, fun x h hp => ?_⟩
    · simp [MustParamsString, hv, h]
    · simp at hp
    · injection hp with hx
      subst hx
      simp [MustParamsString, hv, h]

theorem mustParamsBool_spec (vars : String → Option String) (key : String) :
    MustBehavior key ((vars key).getD "") (strconvParseBool ((vars key).getD "")) (MustParamsBool vars key) := by
  cases hv : vars key with
  | none =>
    refine ⟨fun _ => ?_, fun h hp => ?_, fun x h hp => ?_⟩
    · simp [MustParamsBool, hv]
    · exact absurd rfl h
    · exact absurd rfl h
  | some w =>
    simp only [Option.getD_some]
    refine ⟨fun h => ?_, fun h hp => ?_, fun x h hp => ?_⟩
    · simp [MustParamsBool, hv, h]
    · simp [MustParamsBool, hv, h, hp]
    · simp [MustParamsBool, hv, h, hp]

theorem mustParamsInt_spec (vars : String → Option String) (key : String) :
    MustBehavior key ((vars key).getD "") (strconvAtoi ((vars key).getD "")) (MustParamsInt vars key) := by
  cases hv : vars key with
  | none =>
    refine ⟨fun _ => ?_, fun h hp => ?_, fun x h hp => ?_⟩
    · simp [MustParamsInt, hv]
    · exact absurd rfl h
    · exact absurd rfl h
  | some w =>
    simp only [Option.getD_some]
    refine ⟨fun h => ?_, fun h hp => ?_, fun x h hp => ?_⟩
    · simp [MustParamsInt, hv, h]
    · simp [MustParamsInt, hv, h, hp]
    · simp [MustParamsInt, hv, h, hp]

theorem mustParamsInt32_spec (vars : String → Option String) (key : String) :
    MustBehavior key ((vars key).getD "") (strconvParseInt ((vars key).getD "") 32) (MustParamsInt32 vars key) := by
  cases hv : vars key with
  | none =>
    refine ⟨fun _ => ?_, fun h hp => ?_, fun x h hp => ?_⟩
    · simp [MustParamsInt32, hv]
    · exact absurd rfl h
    · exact absurd rfl h
  | some w =>
    simp only [Option.getD_some]
    refine ⟨fun h => ?_, fun h hp => ?_, fun x h hp => ?_⟩
    · simp [MustParamsInt32, hv, h]
    · simp [MustParamsInt32, hv, h, hp]
    · simp [MustParamsInt32, hv, h, hp]

theorem mustParamsInt64_spec (vars : String → Option String) (key : String) :
    MustBehavior key ((vars key).getD "") (strconvParseInt ((vars key).getD "") 64) (MustParamsInt64 vars key) := by
  cases hv : vars key with
  | none =>
    refine ⟨fun _ => ?_, fun h hp => ?_, fun x h hp => ?_⟩
    · simp [MustParamsInt64, hv]
    · exact absurd rfl h
    · exact absurd rfl h
  | some w =>
    simp only [Option.getD_some]
    refine ⟨fun h => ?_, fun h hp => ?_, fun x h hp => ?_⟩
    · simp [MustParamsInt64, hv, h]
    · simp [MustParamsInt64, hv, h, hp]
    · simp [MustParamsInt64, hv, h, hp]

theorem mustParamsFloat32_spec {F32 : Type} (pf32 : String → Option F32)
    (vars : String → Option String) (key : String) :
    MustBehavior key ((vars key).getD "") (pf32 ((vars key).getD "")) (MustParamsFloat32 pf32 vars key) := by
  cases hv : vars key with
  | none =>
    refine ⟨fun _ => ?_, fun h hp => ?_, fun x h hp => ?_⟩
    · simp [MustParamsFloat32, hv]
    · exact absurd rfl h
    · exact absurd rfl h
  | some w =>
    simp only [Option.getD_some]
    refine ⟨fun h => ?_, fun h hp => ?_, fun x h hp => ?_⟩
    · simp [MustParamsFloat32, hv, h]
    · simp [MustParamsFloat32, hv, h, hp]
    · simp [MustParamsFloat32, hv, h, hp]

theorem mustParamsFloat64_spec {F64 : Type} (pf64 : String → Option F64)
    (vars : String → Option String) (key : String) :
    MustBehavior key ((vars key).getD "") (pf64 ((vars key).getD "")) (MustParamsFloat64 pf64 vars key) := by
  cases hv : vars key with
  | none =>
    refine ⟨fun _ => ?_, fun h hp => ?_, fun x h hp => ?_⟩
    · simp [MustParamsFloat64, hv]
    · exact absurd rfl h
    · exact absurd rfl h
  | some w =>
    simp only [Option.getD_some]
    refine ⟨fun h => ?_, fun h hp => ?_, fun x h hp => ?_⟩
    · simp [MustParamsFloat64, hv, h]
    · simp [MustParamsFloat64, hv, h, hp]
    · simp [MustParamsFloat64, hv, h, hp]

theorem mustParamsTime_spec {T : Type} (pt : String → String → Option T)
    (vars : String → Option String) (key layout : String) :
    MustBehavior key ((vars key).getD "") (pt layout ((vars key).getD "")) (MustParamsTime pt vars key layout) := by
  cases hv : vars key with
  | none =>
    refine ⟨fun _ => ?_, fun h hp => ?_, fun x h hp => ?_⟩
    · simp [MustParamsTime, hv]
    · exact absurd rfl h
    · exact absurd rfl h
  | some w =>
    simp only [Option.getD_some]
    refine ⟨fun h => ?_, fun h hp => ?_, fun x h hp => ?_⟩
    · simp [MustParamsTime, hv, h]
    · simp [MustParamsTime, hv, h, hp]
    · simp [MustParamsTime, hv, h, hp]

theorem mustParamsDuration_spec {D : Type} (pd : String → Option D)
    (vars : String → Option String) (key : String) :
    MustBehavior key ((vars key).getD "") (pd ((vars key).getD "")) (MustParamsDuration pd vars key) := by
  cases hv : vars key with
  | none =>
    refine ⟨fun _ => ?_, fun h hp => ?_, fun x h hp => ?_⟩
    · simp [MustParamsDuration, hv]
    · exact absurd rfl h
    · exact absurd rfl h
  | some w =>
    simp only [Option.getD_some]
    refine ⟨fun h => ?_, fun h hp => ?_, fun x h hp => ?_⟩
    · simp [MustParamsDuration, hv, h]
    · simp [MustParamsDuration, hv, h, hp]
    · simp [MustParamsDuration, hv, h, hp]

theorem formString_defaultSpec (form : String → String) (key : String) (d : String) :
    DefaultBehaviorStr (form key) (some (form key)) d (FormString form key d) := by
  refine ⟨fun h => ?_, fun h hp => ?_, fun x h hp => ?_⟩
  · simp [FormString, h]
  · simp at hp
  · injection hp with hx
    subst hx
    simp [FormString, h]

theorem formBool_defaultSpec (form : String → String) (key : String) (d : Bool) :
    DefaultBehaviorStr (form key) (strconvParseBool (form key)) d (FormBool form key d) := by
  refine ⟨fun h => ?_, fun h hp => ?_, fun x h hp => ?_⟩
  · simp [FormBool, h]
  · simp [FormBool, h, hp]
  · simp [FormBool, h, hp]

theorem formInt_defaultSpec (form : String → String) (key : String) (d : Int) :
    DefaultBehaviorStr (form key) (strconvAtoi (form key)) d (FormInt form key d) := by
  refine ⟨fun h => ?_, fun h hp => ?_, fun x h hp => ?_⟩
  · simp [FormInt, h]
  · simp [FormInt, h, hp]
  · simp [FormInt, h, hp]

theorem formInt32_defaultSpec (form : String → String) (key : String) (d : Int) :
    DefaultBehaviorStr (form key) (strconvParseInt (form key) 32) d (FormInt32 form key d) := by
  refine ⟨fun h => ?_, fun h hp => ?_, fun x h hp => ?_⟩
  · simp [FormInt32, h]
  · simp [FormInt32, h, hp]
  · simp [FormInt32, h, hp]

theorem formInt64_defaultSpec (form : String → String) (key : String) (d : Int) :
    DefaultBehaviorStr (form key) (strconvParseInt (form key) 64) d (FormInt64 form key d) := by
  refine ⟨fun h => ?_, fun h hp => ?_, fun x h hp => ?_⟩
  · simp [FormInt64, h]
  · simp [FormInt64, h, hp]
  · simp [FormInt64, h, hp]

theorem formFloat32_defaultSpec {F32 : Type} (pf32 : String → Option F32)
    (form : String → String) (key : String) (d : F32) :
    DefaultBehaviorStr (form key) (pf32 (form key)) d (FormFloat32 pf32 form key d) := by
  refine ⟨fun h => ?_, fun h hp => ?_, fun x h hp => ?_⟩
  · simp [FormFloat32, h]
  · simp [FormFloat32, h, hp]
  · simp [FormFloat32, h, hp]

theorem formFloat64_defaultSpec {F64 : Type} (pf64 : String → Option F64)
    (form : String → String) (key : String) (d : F64) :
    DefaultBehaviorStr (form key) (pf64 (form key)) d (FormFloat64 pf64 form key d) := by
  refine ⟨fun h => ?_, fun h hp => ?_, fun x h hp => ?_⟩
  · simp [FormFloat64, h]
  · simp [FormFloat64, h, hp]
  · simp [FormFloat64, h, hp]

theorem formTime_defaultSpec {T : Type} (pt : String → String → Option T)
    (form : String → String) (key layout : String) (d : T) :
    DefaultBehaviorStr (form key) (pt layout (form key)) d (FormTime pt form key layout d) := by
  refine ⟨fun h => ?_, fun h hp => ?_, fun x h hp => ?_⟩
  · simp [FormTime, h]
  · simp [FormTime, h, hp]
  · simp [FormTime, h, hp]

theorem formDuration_defaultSpec {D : Type} (pd : String → Option D)
    (form : String → String) (key : String) (d : D) :
    DefaultBehaviorStr (form key) (pd (form key)) d (FormDuration pd form key d) := by
  refine ⟨fun h => ?_, fun h hp => ?_, fun x h hp => ?_⟩
  · simp [FormDuration, h]
  · simp [FormDuration, h, hp]
  · simp [FormDuration, h, hp]

theorem queryString_defaultSpec (query : String → String) (key : String) (d : String) :
    DefaultBehaviorStr (query key) (some (query key)) d (QueryString query key d) := by
  refine ⟨fun h => ?_, fun h hp => ?_, fun x h hp => ?_⟩
  · simp [QueryString, h]
  · simp at hp
  · injection hp with hx
    subst hx
    simp [QueryString, h]

theorem queryStringArray_defaultSpec (query : String → String) (key : String)
    (d : List String) :
    DefaultBehaviorStr (query key) (some ((query key).splitOn ",")) d
      (QueryStringArray query key d) := by
  refine ⟨fun h => ?_, fun h hp => ?_, fun x h hp => ?_⟩
  · simp [QueryStringArray, h]
  · simp at hp
  · injection hp with hx
    subst hx
    simp [QueryStringArray, h]

theorem queryBool_defaultSpec (query : String → String) (key : String) (d : Bool) :
    DefaultBehaviorStr (query key) (strconvParseBool (query key)) d (QueryBool query key d) := by
  refine ⟨fun h => ?_, fun h hp => ?_, fun x h hp => ?_⟩
  · simp [QueryBool, h]
  · simp [QueryBool, h, hp]
  · simp [QueryBool, h, hp]

theorem queryInt_defaultSpec (query : String → String) (key : String) (d : Int) :
    DefaultBehaviorStr (query key) (strconvAtoi (query key)) d (QueryInt query key d) := by
  refine ⟨fun h => ?_, fun h hp => ?_, fun x h hp => ?_⟩
  · simp [QueryInt, h]
  · simp [QueryInt, h, hp]
  · simp [QueryInt, h, hp]

theorem queryInt32_defaultSpec (query : String → String) (key : String) (d : Int) :
    DefaultBehaviorStr (query key) (strconvParseInt (query key) 32) d (QueryInt32 query key d) := by
  refine ⟨fun h => ?_, fun h hp => ?_, fun x h hp => ?_⟩
  · simp [QueryInt32, h]
  · simp [QueryInt32, h, hp]
  · simp [QueryInt32, h, hp]

theorem queryInt64_defaultSpec (query : String → String) (key : String) (d : Int) :
    DefaultBehaviorStr (query key) (strconvParseInt (query key) 64) d (QueryInt64 query key d) := by
  refine ⟨fun h => ?_, fun h hp => ?_, fun x h hp => ?_⟩
  · simp [QueryInt64, h]
  · simp [QueryInt64, h, hp]
  · simp [QueryInt64, h, hp]

theorem queryFloat32_defaultSpec {F32 : Type} (pf32 : String → Option F32)
    (query : String → String) (key : String) (d : F32) :
    DefaultBehaviorStr (query key) (pf32 (query key)) d (QueryFloat32 pf32 query key d) := by
  refine ⟨fun h => ?_, fun h hp => ?_, fun x h hp => ?_⟩
  · simp [QueryFloat32, h]
  · simp [QueryFloat32, h, hp]
  · simp [QueryFloat32, h, hp]

theorem queryFloat64_defaultSpec {F64 : Type} (pf64 : String → Option F64)
    (query : String → String) (key : String) (d : F64) :
    DefaultBehaviorStr (query key) (pf64 (query key)) d (QueryFloat64 pf64 query key d) := by
  refine ⟨fun h => ?_, fun h hp => ?_, fun x h hp => ?_⟩
  · simp [QueryFloat64, h]
  · simp [QueryFloat64, h, hp]
  · simp [QueryFloat64, h, hp]

theorem queryTimeWithDefault_defaultSpec {T : Type} (pt : String → String → Option T)
    (query : String → String) (key layout : String) (d : T) :
    DefaultBehaviorStr (query key) (pt layout (query key)) d (QueryTimeWithDefault pt query key layout d) := by
  refine ⟨fun h => ?_, fun h hp => ?_, fun x h hp => ?_⟩
  · simp [QueryTimeWithDefault, h]
  · simp [QueryTimeWithDefault, h, hp]
  · simp [QueryTimeWithDefault, h, hp]

theorem queryDurationWithDefault_defaultSpec {D : Type} (pd : String → Option D)
    (query : String → String) (key : String) (d : D) :
    DefaultBehaviorStr (query key) (pd (query key)) d (QueryDurationWithDefault pd query key d) := by
  refine ⟨fun h => ?_, fun h hp => ?_, fun x h hp => ?_⟩
  · simp [QueryDurationWithDefault, h]
  · simp [QueryDurationWithDefault, h, hp]
  · simp [QueryDurationWithDefault, h, hp]

/-- C1 counterexample: with the routing variable present and set to the
unparseable value "abc", every default-mode numeric path-variable accessor
of params.go returns the supplied default 7 — the functions are total and
raise nothing, contradicting the claim that this input raises
InvalidParameterError. -/
theorem c1_params_numeric_raises_counterexample :
    ParamsInt (fun _ => some "abc") "key" 7 = 7 ∧
    ParamsInt32 (fun _ => some "abc") "key" 7 = 7 ∧
    ParamsInt64 (fun _ => some "abc") "key" 7 = 7 ∧
    ParamsFloat32 (fun _ => none) (fun _ => some "abc") "key" (7 : Int) = 7 ∧
    ParamsFloat64 (fun _ => none) (fun _ => some "abc") "key" (7 : Int) = 7 := by
  refine ⟨?_, ?_, ?_, ?_, ?_⟩ <;> decide

/-- C1 amended: for every default-mode numeric path-variable accessor, an
absent key, an empty value and a present-but-unparseable value all yield
the supplied default silently, and a parseable value yields the parsed
value — the parse-failure case behaves like the absent case instead of
raising. -/
theorem c1_params_numeric_default_on_parse_failure :
    ∀ (vars : String → Option String) (key : String) (dInt d32 d64 : Int)
      (F32 F64 : Type) (pf32 : String → Option F32) (pf64 : String → Option F64)
      (df32 : F32) (df64 : F64),
      DefaultVarsBehavior (vars key) (strconvAtoi ((vars key).getD "")) dInt
        (ParamsInt vars key dInt) ∧
      DefaultVarsBehavior (vars key) (strconvParseInt ((vars key).getD "") 32) d32
        (ParamsInt32 vars key d32) ∧
      DefaultVarsBehavior (vars key) (strconvParseInt ((vars key).getD "") 64) d64
        (ParamsInt64 vars key d64) ∧
      DefaultVarsBehavior (vars key) (pf32 ((vars key).getD "")) df32
        (ParamsFloat32 pf32 vars key df32) ∧
      DefaultVarsBehavior (vars key) (pf64 ((vars key).getD "")) df64
        (ParamsFloat64 pf64 vars key df64) := by
  intro vars key dInt d32 d64 F32 F64 pf32 pf64 df32 df64
  exact ⟨paramsInt_defaultSpec vars key dInt, paramsInt32_defaultSpec vars key d32,
    paramsInt64_defaultSpec vars key d64, paramsFloat32_defaultSpec pf32 vars key df32,
    paramsFloat64_defaultSpec pf64 vars key df64⟩

/-- C1 witness: a parseable routing variable is parsed and a malformed one
yields the default, both through the amended theorem. -/
theorem c1_params_numeric_default_on_parse_failure_witness :
    ParamsInt (fun _ => some "42") "key" 7 = 42 ∧
    ParamsInt64 (fun _ => some "x") "key" 7 = 7 := by
  constructor
  · have h := c1_params_numeric_default_on_parse_failure
      (fun _ => some "42") "key" 7 7 7 Int Int (fun _ => none) (fun _ => none) 0 0
    exact h.1.2.2.2 "42" 42 rfl (by decide) (by decide)
  · have h := c1_params_numeric_default_on_parse_failure
      (fun _ => some "x") "key" 7 7 7 Int Int (fun _ => none) (fun _ => none) 0 0
    exact h.2.2.1.2.2.1 "x" rfl (by decide) (by decide)

/-- C2 counterexample: on an empty form value MustFormInt panics with a
BadRequestError carrying the missing-parameter message, and on a malformed
one with a BadRequestError carrying the invalid-parameter message; neither
value is the MissingParameterError or InvalidParameterError value the claim
names, although text and status agree. -/
theorem c2_must_error_type_counterexample :
    MustFormInt (fun _ => "") "key" =
      Except.error (BadRequestError ("Missing parameter " ++ goQuote "key") [] none) ∧
    BadRequestError ("Missing parameter " ++ goQuote "key") [] none ≠
      MissingParameterError "key" ∧
    MustFormInt (fun _ => "abc") "key" =
      Except.error (BadRequestError ("Invalid parameter " ++ goQuote "key") [] none) ∧
    BadRequestError ("Invalid parameter " ++ goQuote "key") [] none ≠
      InvalidParameterError "key" := by
  refine ⟨rfl, ?_, rfl, ?_⟩
  · intro h
    simp [BadRequestError, MissingParameterError] at h
  · intro h
    simp [BadRequestError, InvalidParameterError] at h

/-- C2 amended: every plain Must accessor — all three sources, all value
types — raises a BadRequestError whose Message is the missing-parameter
text exactly when the key is absent or its raw value empty, raises a
BadRequestError whose Message is the invalid-parameter text exactly when
the raw value is present but fails to parse, and returns the parsed value
otherwise; these are the only outcomes. The raised values carry the text
and the 400 status of MissingParameterError and InvalidParameterError but
are BadRequestError structs, not values of those types. -/
theorem c2_must_missing_invalid_contract :
    ∀ (form query : String → String) (vars : String → Option String) (key : String)
      (F32 F64 T D : Type) (pf32 : String → Option F32) (pf64 : String → Option F64)
      (pt : String → String → Option T) (layout : String) (pd : String → Option D),
      MustBehavior key (form key) (some (form key)) (MustFormString form key) ∧
      MustBehavior key (form key) (strconvParseBool (form key)) (MustFormBool form key) ∧
      MustBehavior key (form key) (strconvAtoi (form key)) (MustFormInt form key) ∧
      MustBehavior key (form key) (strconvParseInt (form key) 32) (MustFormInt32 form key) ∧
      MustBehavior key (form key) (strconvParseInt (form key) 64) (MustFormInt64 form key) ∧
      MustBehavior key (form key) (pf32 (form key)) (MustFormFloat32 pf32 form key) ∧
      MustBehavior key (form key) (pf64 (form key)) (MustFormFloat64 pf64 form key) ∧
      MustBehavior key (form key) (pt layout (form key)) (MustFormTime pt form key layout) ∧
      MustBehavior key (form key) (pd (form key)) (MustFormDuration pd form key) ∧
      MustBehavior key (query key) (some (query key)) (MustQueryString query key) ∧
      MustBehavior key (query key) (strconvParseBool (query key)) (MustQueryBool query key) ∧
      MustBehavior key (query key) (strconvAtoi (query key)) (MustQueryInt query key) ∧
      MustBehavior key (query key) (strconvParseInt (query key) 32) (MustQueryInt32 query key) ∧
      MustBehavior key (query key) (strconvParseInt (query key) 64) (MustQueryInt64 query key) ∧
      MustBehavior key (query key) (pf32 (query key)) (MustQueryFloat32 pf32 query key) ∧
      MustBehavior key (query key) (pf64 (query key)) (MustQueryFloat64 pf64 query key) ∧
      MustBehavior key (query key) (pt layout (query key)) (MustQueryTime pt query key layout) ∧
      MustBehavior key (query key) (pd (query key)) (MustQueryDuration pd query key) ∧
      MustBehavior key ((vars key).getD "") (some ((vars key).getD ""))
        (MustParamsString vars key) ∧
      MustBehavior key ((vars key).getD "") (strconvParseBool ((vars key).getD ""))
        (MustParamsBool vars key) ∧
      MustBehavior key ((vars key).getD "") (strconvAtoi ((vars key).getD ""))
        (MustParamsInt vars key) ∧
      MustBehavior key ((vars key).getD "") (strconvParseInt ((vars key).getD "") 32)
        (MustParamsInt32 vars key) ∧
      MustBehavior key ((vars key).getD "") (strconvParseInt ((vars key).getD "") 64)
        (MustParamsInt64 vars key) ∧
      MustBehavior key ((vars key).getD "") (pf32 ((vars key).getD ""))
        (MustParamsFloat32 pf32 vars key) ∧
      MustBehavior key ((vars key).getD "") (pf64 ((vars key).getD ""))
        (MustParamsFloat64 pf64 vars key) ∧
      MustBehavior key ((vars key).getD "") (pt layout ((vars key).getD ""))
        (MustParamsTime pt vars key layout) ∧
      MustBehavior key ((vars key).getD "") (pd ((vars key).getD ""))
        (MustParamsDuration pd vars key) := by
  intro form query vars key F32 F64 T D pf32 pf64 pt layout pd
  exact ⟨mustFormString_spec form key, mustFormBool_spec form key,
    mustFormInt_spec form key, mustFormInt32_spec form key, mustFormInt64_spec form key,
    mustFormFloat32_spec pf32 form key, mustFormFloat64_spec pf64 form key,
    mustFormTime_spec pt form key layout, mustFormDuration_spec pd form key,
    mustQueryString_spec query key, mustQueryBool_spec query key,
    mustQueryInt_spec query key, mustQueryInt32_spec query key, mustQueryInt64_spec query key,
    mustQueryFloat32_spec pf32 query key, mustQueryFloat64_spec pf64 query key,
    mustQueryTime_spec pt query key layout, mustQueryDuration_spec pd query key,
    mustParamsString_spec vars key, mustParamsBool_spec vars key,
    mustParamsInt_spec vars key, mustParamsInt32_spec vars key, mustParamsInt64_spec vars key,
    mustParamsFloat32_spec pf32 vars key, mustParamsFloat64_spec pf64 vars key,
    mustParamsTime_spec pt vars key layout, mustParamsDuration_spec pd vars key⟩

/-- C2 witness: a parseable form value is returned and an absent query key
raises the missing-parameter panic, both through the amended theorem. -/
theorem c2_must_missing_invalid_contract_witness :
    MustFormString (fun _ => "Rob") "key" = Except.ok "Rob" ∧
    MustQueryInt (fun _ => "") "key" =
      Except.error (BadRequestError ("Missing parameter " ++ goQuote "key") [] none) := by
  have h := c2_must_missing_invalid_contract (fun _ => "Rob") (fun _ => "")
    (fun _ => none) "key" Int Int Int Int (fun _ => none) (fun _ => none)
    (fun _ _ => none) "L" (fun _ => none)
  constructor
  · exact h.1.2.2 "Rob" (by decide) rfl
  · exact (h.2.2.2.2.2.2.2.2.2.2.2.1).1 rfl

/-- C3: every form and every query default-mode accessor yields the
supplied default both on an absent-or-empty key and on a parse failure, and
the parsed value otherwise, raising nothing: the result is always either
the parsed value or the caller's default. -/
theorem c3_form_query_default_silent :
    ∀ (form query : String → String) (key : String)
      (F32 F64 T D : Type) (pf32 : String → Option F32) (pf64 : String → Option F64)
      (pt : String → String → Option T) (layout : String) (pd : String → Option D)
      (ds : String) (db : Bool) (dInt d32 d64 : Int) (df32 : F32) (df64 : F64)
      (dt : T) (dd : D) (dl : List String),
      DefaultBehaviorStr (form key) (some (form key)) ds (FormString form key ds) ∧
      DefaultBehaviorStr (form key) (strconvParseBool (form key)) db (FormBool form key db) ∧
      DefaultBehaviorStr (form key) (strconvAtoi (form key)) dInt (FormInt form key dInt) ∧
      DefaultBehaviorStr (form key) (strconvParseInt (form key) 32) d32
        (FormInt32 form key d32) ∧
      DefaultBehaviorStr (form key) (strconvParseInt (form key) 64) d64
        (FormInt64 form key d64) ∧
      DefaultBehaviorStr (form key) (pf32 (form key)) df32 (FormFloat32 pf32 form key df32) ∧
      DefaultBehaviorStr (form key) (pf64 (form key)) df64 (FormFloat64 pf64 form key df64) ∧
      DefaultBehaviorStr (form key) (pt layout (form key)) dt
        (FormTime pt form key layout dt) ∧
      DefaultBehaviorStr (form key) (pd (form key)) dd (FormDuration pd form key dd) ∧
      DefaultBehaviorStr (query key) (some (query key)) ds (QueryString query key ds) ∧
      DefaultBehaviorStr (query key) (some ((query key).splitOn ",")) dl
        (QueryStringArray query key dl) ∧
      DefaultBehaviorStr (query key) (strconvParseBool (query key)) db
        (QueryBool query key db) ∧
      DefaultBehaviorStr (query key) (strconvAtoi (query key)) dInt (QueryInt query key dInt) ∧
      DefaultBehaviorStr (query key) (strconvParseInt (query key) 32) d32
        (QueryInt32 query key d32) ∧
      DefaultBehaviorStr (query key) (strconvParseInt (query key) 64) d64
        (QueryInt64 query key d64) ∧
      DefaultBehaviorStr (query key) (pf32 (query key)) df32
        (QueryFloat32 pf32 query key df32) ∧
      DefaultBehaviorStr (query key) (pf64 (query key)) df64
        (QueryFloat64 pf64 query key df64) ∧
      DefaultBehaviorStr (query key) (pt layout (query key)) dt
        (QueryTimeWithDefault pt query key layout dt) ∧
      DefaultBehaviorStr (query key) (pd (query key)) dd
        (QueryDurationWithDefault pd query key dd) := by
  intro form query key F32 F64 T D pf32 pf64 pt layout pd ds db dInt d32 d64 df32 df64 dt dd dl
  exact ⟨formString_defaultSpec form key ds, formBool_defaultSpec form key db,
    formInt_defaultSpec form key dInt, formInt32_defaultSpec form key d32,
    formInt64_defaultSpec form key d64, formFloat32_defaultSpec pf32 form key df32,
    formFloat64_defaultSpec pf64 form key df64, formTime_defaultSpec pt form key layout dt,
    formDuration_defaultSpec pd form key dd, queryString_defaultSpec query key ds,
    queryStringArray_defaultSpec query key dl, queryBool_defaultSpec query key db,
    queryInt_defaultSpec query key dInt, queryInt32_defaultSpec query key d32,
    queryInt64_defaultSpec query key d64, queryFloat32_defaultSpec pf32 query key df32,
    queryFloat64_defaultSpec pf64 query key df64,
    queryTimeWithDefault_defaultSpec pt query key layout dt,
    queryDurationWithDefault_defaultSpec pd query key dd⟩

/-- C3 witness: a parseable query value is parsed and a malformed form
value yields the default silently, both through the theorem. -/
theorem c3_form_query_default_silent_witness :
    QueryInt (fun _ => "42") "key" 7 = 42 ∧
    FormBool (fun _ => "notabool") "key" true = true := by
  constructor
  · have h := c3_form_query_default_silent (fun _ => "") (fun _ => "42") "key"
      Int Int Int Int (fun _ => none) (fun _ => none) (fun _ _ => none) "L" (fun _ => none)
      "" false 7 0 0 0 0 0 0 []
    exact (h.2.2.2.2.2.2.2.2.2.2.2.2.1).2.2 42 (by decide) (by decide)
  · have h := c3_form_query_default_silent (fun _ => "notabool") (fun _ => "") "key"
      Int Int Int Int (fun _ => none) (fun _ => none) (fun _ _ => none) "L" (fun _ => none)
      "" true 0 0 0 0 0 0 0 []
    exact (h.2.1).2.1 (by decide) (by decide)

end Httputil
